import Mathlib

/-!
Shallow embedding of the staking program (src/programs/staking/src/lib.rs)
of the solana-contracts repository, together with theorems settling the
claims of the specification against it.

Modelling conventions:
* `u64` values are `Nat`s; arithmetic written `+=` / `-=` in the source is
  modelled as checked arithmetic that aborts the transaction on overflow or
  underflow (the Anchor build enables overflow checks, and the spec's error
  taxonomy lists ArithmeticError), so a wrap never commits.
* `u128` intermediate arithmetic is modelled with an explicit `% 2 ^ 128`,
  and the `as u64` narrowing cast with an explicit `% 2 ^ 64`.
* `i64` timestamps are `Int`s.
* `Pubkey`s are `Nat`s (only equality of keys is ever used).
* Account resolution performed by Anchor before the instruction body runs
  (PDA lookup, `init`, `init_if_needed`) is modelled by the
  `accountNotFound` / `accountAlreadyInUse` transaction errors.
* Every instruction returns an `OpResult`: the list of observable events in
  the order the source emits them (precondition checks, account-field
  mutations, token transfers) and the outcome, `Except` an error.  On an
  error the host ledger discards the whole transaction, so the resulting
  state of a failed instruction is the unchanged input state; the event
  trace still records what the body issued before failing.
* The `bump` fields and the SPL/ATA plumbing accounts carry no program
  logic and are omitted; a token transfer is recorded as a `transfer`
  event with its amount (the vault balance itself is outside the model).
* The program has a single pool per `(creator, pool_id)` PDA and deposits
  are keyed by `(staker, pool, deposit_id)`; operations touch one pool and
  its own deposits only, so the state carries one pool, its deposit
  accounts and the staker-stats accounts.
-/

namespace Staking

/-- The modulus 2 ^ 64 of the `u64` amount type. -/
def U64_MOD : Nat := 2 ^ 64

/-- The modulus 2 ^ 128 of the `u128` intermediate type. -/
def U128_MOD : Nat := 2 ^ 128

/-- The `StakingError` enum of the program (src lines 710-732). -/
inductive StakingError
  | InvalidTokenDecimals
  | EmergencyModeAlreadyEnabled
  | EmergencyModeEnabled
  | NotEnoughTokensToUnstake
  | ClaimCooldownNotElapsed
  | ClaimCooldownNotActive
  | CooldownAlreadyActivated
  | EmergencyModeNotEnabled
  | DepositAlreadyWithdrawn
  | UnauthorizedPoolAccess
  deriving DecidableEq, Repr

/-- The error taxonomy of the specification (§7). -/
inductive ErrorClass
  | validation
  | authorization
  | state
  | arithmetic
  | resource
  deriving DecidableEq, Repr

/-- Classification of the program's errors into the spec's §7 taxonomy. -/
def errorClass : StakingError → ErrorClass
  | .InvalidTokenDecimals => .validation
  | .EmergencyModeAlreadyEnabled => .state
  | .EmergencyModeEnabled => .state
  | .NotEnoughTokensToUnstake => .resource
  | .ClaimCooldownNotElapsed => .state
  | .ClaimCooldownNotActive => .state
  | .CooldownAlreadyActivated => .state
  | .EmergencyModeNotEnabled => .state
  | .DepositAlreadyWithdrawn => .state
  | .UnauthorizedPoolAccess => .authorization

/-- Ways a transaction aborts: a program error returned by a `require!`,
a checked-arithmetic panic, a division-by-zero panic, or an Anchor
account-resolution failure before the instruction body runs. -/
inductive TxError
  | program (e : StakingError)
  | overflow
  | divByZero
  | accountNotFound
  | accountAlreadyInUse
  deriving DecidableEq, Repr

/-- Checked `u64` addition: the source's `+=`. -/
def checkedAdd64 (a b : Nat) : Except TxError Nat :=
  if a + b < U64_MOD then .ok (a + b) else .error .overflow

/-- Checked `u64` subtraction: the source's `-=`. -/
def checkedSub64 (a b : Nat) : Except TxError Nat :=
  if b ≤ a then .ok (a - b) else .error .overflow

/-- Observable events of an instruction body, in source order. -/
inductive Event
  | check (passed : Bool)
  | mutate
  | transfer (amount : Nat)
  deriving DecidableEq, Repr

/-- The `StakingPool` account (src lines 396-405); the `bump` is omitted. -/
structure StakingPool where
  pool_id : Nat
  creator : Nat
  current_tokens_staked : Nat
  current_rewards : Nat
  claim_cooldown : Int
  emergency_mode_enabled : Bool
  deriving DecidableEq, Repr

/-- The `StakerDeposit` account (src lines 407-416); the PDA seeds carry the
staker key, recorded here as a field; the `bump` is omitted. -/
structure StakerDeposit where
  staker : Nat
  deposit_id : Nat
  tokens_deposited : Nat
  tokens_claimed : Nat
  unlock_timestamp : Int
  is_withdrawn : Bool
  is_cooldown_active : Bool
  deriving DecidableEq, Repr

/-- The `StakerStats` account (src lines 418-423); the `bump` is omitted. -/
structure StakerStats where
  staker : Nat
  total_staked : Nat
  deriving DecidableEq, Repr

/-- The accounts a pool's operations touch: the pool itself, its deposit
PDAs and the staker-stats PDAs. -/
structure State where
  pool : StakingPool
  deposits : List StakerDeposit
  stats : List StakerStats
  deriving DecidableEq, Repr

deriving instance DecidableEq for Except

/-- Outcome of one instruction: the events its body issued, in order, and
either the updated accounts or the abort error. -/
structure OpResult where
  events : List Event
  result : Except TxError State
  deriving DecidableEq, Repr

/-- PDA lookup of a deposit by `(staker, deposit_id)`. -/
def findDeposit : List StakerDeposit → Nat → Nat → Option StakerDeposit
  | [], _, _ => none
  | d :: ds, st, id =>
      if d.staker == st && d.deposit_id == id then some d
      else findDeposit ds st id

/-- Write back a deposit account located by `(staker, deposit_id)`. -/
def updateDeposit : List StakerDeposit → Nat → Nat → StakerDeposit →
    List StakerDeposit
  | [], _, _, _ => []
  | d :: ds, st, id, d' =>
      if d.staker == st && d.deposit_id == id then d' :: ds
      else d :: updateDeposit ds st id d'

/-- PDA lookup of a staker-stats account. -/
def findStats : List StakerStats → Nat → Option StakerStats
  | [], _ => none
  | st :: sts, s => if st.staker == s then some st else findStats sts s

/-- Write back (or lazily create, for `init_if_needed`) a staker-stats
account. -/
def putStats : List StakerStats → StakerStats → List StakerStats
  | [], st' => [st']
  | st :: sts, st' =>
      if st.staker == st'.staker then st' :: sts else st :: putStats sts st'

/-- Embeds `economy_estimate_rewards` (src lines 7-23): both factors and the
divisor are widened from `u64` to `u128`, the product and quotient live in
`u128` (hence the `% U128_MOD`, which in fact never truncates for `u64`
inputs), and the quotient is narrowed back with `as u64` (the `% U64_MOD`).
Rust's `u128` division panics when the divisor is zero, aborting the
transaction. -/
def economy_estimate_rewards (total_staked_tokens user_staked_tokens
    total_rewards : Nat) : Except TxError Nat :=
  if total_staked_tokens = 0 then .error .divByZero
  else .ok ((user_staked_tokens * total_rewards % U128_MOD /
      total_staked_tokens) % U64_MOD)

/-- Embeds `create_pool` (src lines 31-63).  Anchor's `init` constraint guarantees
the pool PDA is fresh, so creation yields a brand-new account set.  The
body has no `require!` check; it writes the pool fields and, when
`initial_funding_amount > 0`, issues the funding transfer. -/
def create_pool (creator pool_id initial_funding_amount : Nat)
    (claim_cooldown : Int) : OpResult :=
  { events := .mutate ::
      (if initial_funding_amount > 0
        then [.transfer initial_funding_amount] else []),
    result := .ok
      { pool :=
          { pool_id
            creator
            current_tokens_staked := 0
            current_rewards := initial_funding_amount
            claim_cooldown
            emergency_mode_enabled := false }
        deposits := []
        stats := [] } }

/-- Embeds `fund_pool` (src lines 66-85): creator check, then
`current_rewards += amount`, then the transfer into the vault. -/
def fund_pool (s : State) (signer : Nat) (amount : Nat) : OpResult :=
  if s.pool.creator ≠ signer then
    { events := [.check false],
      result := .error (.program .UnauthorizedPoolAccess) }
  else
    match checkedAdd64 s.pool.current_rewards amount with
    | .error e => { events := [.check true], result := .error e }
    | .ok nr =>
        { events := [.check true, .mutate, .transfer amount],
          result := .ok
            { s with pool := { s.pool with current_rewards := nr } } }

/-- Embeds `enable_emergency_mode` (src lines 89-106): creator check, already-
enabled check, then the flag is set. -/
def enable_emergency_mode (s : State) (signer : Nat) : OpResult :=
  if s.pool.creator ≠ signer then
    { events := [.check false],
      result := .error (.program .UnauthorizedPoolAccess) }
  else if s.pool.emergency_mode_enabled then
    { events := [.check true, .check false],
      result := .error (.program .EmergencyModeAlreadyEnabled) }
  else
    { events := [.check true, .check true, .mutate],
      result := .ok
        { s with pool := { s.pool with emergency_mode_enabled := true } } }

/-- Embeds `change_pool_cooldown` (src lines 110-122): creator check, then
`claim_cooldown` is overwritten; nothing else is touched. -/
def change_pool_cooldown (s : State) (signer : Nat) (new_cooldown : Int) :
    OpResult :=
  if s.pool.creator ≠ signer then
    { events := [.check false],
      result := .error (.program .UnauthorizedPoolAccess) }
  else
    { events := [.check true, .mutate],
      result := .ok
        { s with pool := { s.pool with claim_cooldown := new_cooldown } } }

/-- Embeds `stake` (src lines 127-168).  Anchor `init` on the deposit PDA fails if
it already exists; `init_if_needed` creates the staker-stats lazily.  The
body checks emergency mode, writes the new deposit, adds the amount to the
staker's aggregate and to the pool, and transfers the amount into the
vault.  There is no check that `deposit_amount > 0`. -/
def stake (s : State) (staker deposit_id deposit_amount : Nat) (now : Int) :
    OpResult :=
  if (findDeposit s.deposits staker deposit_id).isSome then
    { events := [], result := .error .accountAlreadyInUse }
  else if s.pool.emergency_mode_enabled then
    { events := [.check false],
      result := .error (.program .EmergencyModeEnabled) }
  else
    match checkedAdd64
        ((findStats s.stats staker).getD
          { staker := staker, total_staked := 0 }).total_staked
        deposit_amount with
    | .error e => { events := [.check true, .mutate], result := .error e }
    | .ok stakerTotal =>
        match checkedAdd64 s.pool.current_tokens_staked deposit_amount with
        | .error e => { events := [.check true, .mutate], result := .error e }
        | .ok poolTotal =>
            { events := [.check true, .mutate, .transfer deposit_amount],
              result := .ok
                { pool :=
                    { s.pool with current_tokens_staked := poolTotal }
                  deposits := s.deposits ++
                    [{ staker := staker
                       deposit_id := deposit_id
                       tokens_deposited := deposit_amount
                       tokens_claimed := 0
                       unlock_timestamp := now + s.pool.claim_cooldown
                       is_withdrawn := false
                       is_cooldown_active := false }]
                  stats := putStats s.stats
                    { staker := staker, total_staked := stakerTotal } } }

/-- Embeds `activate_cooldown` (src lines 171-192): withdrawn check, cooldown-
already-active check, then the cooldown is armed with the pool's current
`claim_cooldown`. -/
def activate_cooldown (s : State) (staker deposit_id : Nat) (now : Int) :
    OpResult :=
  match findDeposit s.deposits staker deposit_id with
  | none => { events := [], result := .error .accountNotFound }
  | some d =>
      if d.is_withdrawn then
        { events := [.check false],
          result := .error (.program .DepositAlreadyWithdrawn) }
      else if d.is_cooldown_active then
        { events := [.check true, .check false],
          result := .error (.program .CooldownAlreadyActivated) }
      else
        { events := [.check true, .check true, .mutate],
          result := .ok
            { s with
              deposits :=
                updateDeposit s.deposits staker deposit_id
                  { d with
                    is_cooldown_active := true
                    unlock_timestamp := now + s.pool.claim_cooldown } } }

/-- Embeds `unstake` (src lines 195-290).  After account resolution the body
checks, in order: emergency mode off, not withdrawn, cooldown active,
cooldown elapsed; computes the reward share with
`economy_estimate_rewards`; then mutates the deposit, the staker
aggregate and the pool; then transfers the principal and the reward. -/
def unstake (s : State) (staker deposit_id : Nat) (now : Int) : OpResult :=
  match findDeposit s.deposits staker deposit_id with
  | none => { events := [], result := .error .accountNotFound }
  | some d =>
    match findStats s.stats staker with
    | none => { events := [], result := .error .accountNotFound }
    | some st =>
      if s.pool.emergency_mode_enabled then
        { events := [.check false],
          result := .error (.program .EmergencyModeEnabled) }
      else if d.is_withdrawn then
        { events := [.check true, .check false],
          result := .error (.program .DepositAlreadyWithdrawn) }
      else if ¬ d.is_cooldown_active then
        { events := [.check true, .check true, .check false],
          result := .error (.program .ClaimCooldownNotActive) }
      else if ¬ (now ≥ d.unlock_timestamp) then
        { events := [.check true, .check true, .check true, .check false],
          result := .error (.program .ClaimCooldownNotElapsed) }
      else
        match economy_estimate_rewards s.pool.current_tokens_staked
            d.tokens_deposited s.pool.current_rewards with
        | .error e =>
            { events := [.check true, .check true, .check true, .check true],
              result := .error e }
        | .ok user_rewards =>
          match checkedSub64 st.total_staked d.tokens_deposited with
          | .error e =>
              { events :=
                  [.check true, .check true, .check true, .check true,
                   .mutate],
                result := .error e }
          | .ok stakerTotal =>
            match checkedSub64 s.pool.current_rewards user_rewards with
            | .error e =>
                { events :=
                    [.check true, .check true, .check true, .check true,
                     .mutate],
                  result := .error e }
            | .ok poolRewards =>
              match checkedSub64 s.pool.current_tokens_staked
                  d.tokens_deposited with
              | .error e =>
                  { events :=
                      [.check true, .check true, .check true, .check true,
                       .mutate],
                    result := .error e }
              | .ok poolTotal =>
                  { events :=
                      [.check true, .check true, .check true, .check true,
                       .mutate, .transfer d.tokens_deposited,
                       .transfer user_rewards],
                    result := .ok
                      { pool :=
                          { s.pool with
                            current_rewards := poolRewards
                            current_tokens_staked := poolTotal }
                        deposits :=
                          updateDeposit s.deposits staker deposit_id
                            { d with
                              is_withdrawn := true
                              tokens_claimed := user_rewards }
                        stats :=
                          putStats s.stats
                            { staker := staker
                              total_staked := stakerTotal } } }

/-- Embeds `unstake_emergency` (src lines 293-348).  The body issues the
principal transfer FIRST (src lines 312-318) and only then checks that
emergency mode is on and that the deposit is not withdrawn, before
mutating the deposit, the staker aggregate and the pool. -/
def unstake_emergency (s : State) (staker deposit_id : Nat) : OpResult :=
  match findDeposit s.deposits staker deposit_id with
  | none => { events := [], result := .error .accountNotFound }
  | some d =>
    match findStats s.stats staker with
    | none => { events := [], result := .error .accountNotFound }
    | some st =>
      if ¬ s.pool.emergency_mode_enabled then
        { events := [.transfer d.tokens_deposited, .check false],
          result := .error (.program .EmergencyModeNotEnabled) }
      else if d.is_withdrawn then
        { events :=
            [.transfer d.tokens_deposited, .check true, .check false],
          result := .error (.program .DepositAlreadyWithdrawn) }
      else
        match checkedSub64 st.total_staked d.tokens_deposited with
        | .error e =>
            { events :=
                [.transfer d.tokens_deposited, .check true, .check true,
                 .mutate],
              result := .error e }
        | .ok stakerTotal =>
          match checkedSub64 s.pool.current_tokens_staked
              d.tokens_deposited with
          | .error e =>
              { events :=
                  [.transfer d.tokens_deposited, .check true, .check true,
                   .mutate],
                result := .error e }
          | .ok poolTotal =>
              { events :=
                  [.transfer d.tokens_deposited, .check true, .check true,
                   .mutate],
                result := .ok
                  { pool :=
                      { s.pool with current_tokens_staked := poolTotal }
                    deposits :=
                      updateDeposit s.deposits staker deposit_id
                        { d with is_withdrawn := true }
                    stats :=
                      putStats s.stats
                        { staker := staker
                          total_staked := stakerTotal } } }

/-- Embeds `withdraw_rewards_emergency` (src lines 351-393): the reward balance
is captured first (src line 356), then the creator and emergency-mode
checks run, then `current_rewards` is zeroed (src line 382), and finally
the CAPTURED balance is transferred to the creator (src line 388). -/
def withdraw_rewards_emergency (s : State) (signer : Nat) : OpResult :=
  if s.pool.creator ≠ signer then
    { events := [.check false],
      result := .error (.program .UnauthorizedPoolAccess) }
  else if ¬ s.pool.emergency_mode_enabled then
    { events := [.check true, .check false],
      result := .error (.program .EmergencyModeNotEnabled) }
  else
    { events :=
        [.check true, .check true, .mutate,
         .transfer s.pool.current_rewards],
      result := .ok
        { s with pool := { s.pool with current_rewards := 0 } } }

/-- The instructions that operate on an existing pool (every entry point
of the `#[program]` module except `create_pool`, whose `init` constraint
makes it the initial transition). -/
inductive Op
  | fund_pool (signer : Nat) (amount : Nat)
  | enable_emergency_mode (signer : Nat)
  | change_pool_cooldown (signer : Nat) (new_cooldown : Int)
  | stake (staker deposit_id deposit_amount : Nat) (now : Int)
  | activate_cooldown (staker deposit_id : Nat) (now : Int)
  | unstake (staker deposit_id : Nat) (now : Int)
  | unstake_emergency (staker deposit_id : Nat)
  | withdraw_rewards_emergency (signer : Nat)
  deriving DecidableEq, Repr

/-- Dispatch an instruction against the pool's account set. -/
def step (s : State) : Op → OpResult
  | .fund_pool signer amount => fund_pool s signer amount
  | .enable_emergency_mode signer => enable_emergency_mode s signer
  | .change_pool_cooldown signer nc => change_pool_cooldown s signer nc
  | .stake staker id amt now => stake s staker id amt now
  | .activate_cooldown staker id now => activate_cooldown s staker id now
  | .unstake staker id now => unstake s staker id now
  | .unstake_emergency staker id => unstake_emergency s staker id
  | .withdraw_rewards_emergency signer => withdraw_rewards_emergency s signer

/-- States of a pool reachable from its creation through the program's
instructions (a failed instruction leaves the state unchanged, so only
successful outcomes transition). -/
inductive Reachable : State → Prop
  | init (creator pool_id initial_funding_amount : Nat)
      (claim_cooldown : Int) (s : State) :
      (create_pool creator pool_id initial_funding_amount
        claim_cooldown).result = .ok s → Reachable s
  | next (s : State) (op : Op) (s' : State) :
      Reachable s → (step s op).result = .ok s' → Reachable s'

/-- Sum of `tokens_deposited` over the non-withdrawn deposits. -/
def sumActive (ds : List StakerDeposit) : Nat :=
  (ds.filter (fun d => !d.is_withdrawn)).foldr
    (fun d acc => d.tokens_deposited + acc) 0

/-- The spec §8 invariant: the pool's `current_tokens_staked` equals the
sum of its non-withdrawn deposits' amounts. -/
def poolInvariant (s : State) : Prop :=
  s.pool.current_tokens_staked = sumActive s.deposits

instance (s : State) : Decidable (poolInvariant s) := by
  unfold poolInvariant; infer_instance

/-- No event in the list is a `check`. -/
def noCheck : List Event → Bool
  | [] => true
  | .check _ :: _ => false
  | _ :: es => noCheck es

/-- Every `check` event precedes every `mutate` and `transfer` event. -/
def checksFirst : List Event → Bool
  | [] => true
  | .check _ :: es => checksFirst es
  | _ :: es => noCheck es

/-- Contribution of one deposit to `sumActive`. -/
def activeAmt (d : StakerDeposit) : Nat :=
  if d.is_withdrawn then 0 else d.tokens_deposited

/-- The §8 scenario pool after the two stakes: 400 staked, 1000 rewards. -/
def poolA : StakingPool :=
  { pool_id := 1, creator := 7, current_tokens_staked := 400,
    current_rewards := 1000, claim_cooldown := 10,
    emergency_mode_enabled := false }

/-- Staker A's deposit of 100 with its cooldown armed and elapsed. -/
def depositA : StakerDeposit :=
  { staker := 100, deposit_id := 1, tokens_deposited := 100,
    tokens_claimed := 0, unlock_timestamp := 60, is_withdrawn := false,
    is_cooldown_active := true }

/-- Staker B's deposit of 300, cooldown never armed. -/
def depositB : StakerDeposit :=
  { staker := 200, deposit_id := 2, tokens_deposited := 300,
    tokens_claimed := 0, unlock_timestamp := 10, is_withdrawn := false,
    is_cooldown_active := false }

/-- The §8 scenario state just before staker A unstakes. -/
def sReady : State :=
  { pool := poolA
    deposits := [depositA, depositB]
    stats := [{ staker := 100, total_staked := 100 },
              { staker := 200, total_staked := 300 }] }

/-- The same accounts with the pool switched into emergency mode. -/
def sEmergency : State :=
  { sReady with pool := { poolA with emergency_mode_enabled := true } }

/-- A freshly created pool: `create_pool 7 1 5 10`. -/
def sFresh : State :=
  { pool :=
      { pool_id := 1, creator := 7, current_tokens_staked := 0,
        current_rewards := 5, claim_cooldown := 10,
        emergency_mode_enabled := false }
    deposits := []
    stats := [] }

/-- The zero-amount deposit `stake sFresh 100 1 0 0` creates. -/
def depZeroInit : StakerDeposit :=
  { staker := 100, deposit_id := 1, tokens_deposited := 0,
    tokens_claimed := 0, unlock_timestamp := 10, is_withdrawn := false,
    is_cooldown_active := false }

/-- `sFresh` after the zero-amount stake. -/
def sZeroStaked : State :=
  { pool := sFresh.pool
    deposits := [depZeroInit]
    stats := [{ staker := 100, total_staked := 0 }] }

/-- `sZeroStaked` after arming the zero deposit's cooldown: the pool's
`current_tokens_staked` is 0 while a live, cooldown-elapsed deposit
exists. -/
def sZero : State :=
  { pool := sFresh.pool
    deposits := [{ depZeroInit with is_cooldown_active := true }]
    stats := [{ staker := 100, total_staked := 0 }] }

lemma sumActive_cons (d : StakerDeposit) (ds : List StakerDeposit) :
    sumActive (d :: ds) = activeAmt d + sumActive ds := by
  simp only [sumActive, activeAmt, List.filter_cons]
  by_cases h : d.is_withdrawn <;> simp [h]

lemma sumActive_append (ds es : List StakerDeposit) :
    sumActive (ds ++ es) = sumActive ds + sumActive es := by
  induction ds with
  | nil => simp [sumActive]
  | cons d ds ih => simp [sumActive_cons, ih, Nat.add_assoc]

lemma findDeposit_keys {ds : List StakerDeposit} {st id : Nat}
    {d : StakerDeposit} (h : findDeposit ds st id = some d) :
    d.staker = st ∧ d.deposit_id = id := by
  induction ds with
  | nil => simp [findDeposit] at h
  | cons e es ih =>
      unfold findDeposit at h
      split at h
      · next hc =>
          cases h
          simpa only [Bool.and_eq_true, beq_iff_eq] using hc
      · exact ih h

lemma sumActive_updateDeposit {ds : List StakerDeposit} {st id : Nat}
    {d : StakerDeposit} (d' : StakerDeposit)
    (h : findDeposit ds st id = some d) :
    sumActive (updateDeposit ds st id d') + activeAmt d =
      sumActive ds + activeAmt d' := by
  induction ds with
  | nil => simp [findDeposit] at h
  | cons e es ih =>
      unfold findDeposit at h
      unfold updateDeposit
      split at h
      · next hc =>
          cases h
          simp only [hc, if_pos, sumActive_cons]
          omega
      · next hc =>
          simp only [hc, if_neg, sumActive_cons, Bool.false_eq_true,
            not_false_eq_true]
          have := ih h
          omega

lemma findDeposit_updateDeposit_self {ds : List StakerDeposit}
    {st id : Nat} {d : StakerDeposit} (d' : StakerDeposit)
    (h : findDeposit ds st id = some d)
    (hst : d'.staker = st) (hid : d'.deposit_id = id) :
    findDeposit (updateDeposit ds st id d') st id = some d' := by
  induction ds with
  | nil => simp [findDeposit] at h
  | cons e es ih =>
      unfold findDeposit at h
      unfold updateDeposit
      split at h
      · next hc =>
          simp [findDeposit, hc, hst, hid]
      · next hc =>
          simp only [hc, if_neg, Bool.false_eq_true, not_false_eq_true,
            findDeposit]
          exact ih h

lemma sumActive_nil : sumActive [] = 0 := rfl

lemma checkedAdd64_ok_iff {a b n : Nat} :
    checkedAdd64 a b = .ok n ↔ a + b < U64_MOD ∧ n = a + b := by
  unfold checkedAdd64; split <;> simp_all [eq_comm]

lemma checkedSub64_ok_iff {a b n : Nat} :
    checkedSub64 a b = .ok n ↔ b ≤ a ∧ n = a - b := by
  unfold checkedSub64; split <;> simp_all [eq_comm]

lemma poolInvariant_fund_pool {s : State} {signer amount : Nat} {s' : State}
    (h : (fund_pool s signer amount).result = .ok s')
    (hinv : poolInvariant s) : poolInvariant s' := by
  unfold fund_pool at h
  repeat' split at h
  all_goals simp at h
  all_goals subst h
  all_goals simp_all [poolInvariant]

lemma poolInvariant_enable_emergency_mode {s : State} {signer : Nat}
    {s' : State} (h : (enable_emergency_mode s signer).result = .ok s')
    (hinv : poolInvariant s) : poolInvariant s' := by
  unfold enable_emergency_mode at h
  repeat' split at h
  all_goals simp at h
  all_goals subst h
  all_goals simp_all [poolInvariant]

lemma poolInvariant_change_pool_cooldown {s : State} {signer : Nat}
    {nc : Int} {s' : State}
    (h : (change_pool_cooldown s signer nc).result = .ok s')
    (hinv : poolInvariant s) : poolInvariant s' := by
  unfold change_pool_cooldown at h
  repeat' split at h
  all_goals simp at h
  all_goals subst h
  all_goals simp_all [poolInvariant]

lemma poolInvariant_withdraw_rewards_emergency {s : State} {signer : Nat}
    {s' : State}
    (h : (withdraw_rewards_emergency s signer).result = .ok s')
    (hinv : poolInvariant s) : poolInvariant s' := by
  unfold withdraw_rewards_emergency at h
  repeat' split at h
  all_goals simp at h
  all_goals subst h
  all_goals simp_all [poolInvariant]

lemma poolInvariant_stake {s : State} {a b c : Nat} {now : Int} {s' : State}
    (h : (stake s a b c now).result = .ok s')
    (hinv : poolInvariant s) : poolInvariant s' := by
  unfold stake at h
  repeat' split at h
  all_goals simp at h
  all_goals subst h
  all_goals simp_all [poolInvariant, checkedAdd64_ok_iff, sumActive_append,
    sumActive_cons, sumActive_nil, activeAmt]

lemma poolInvariant_activate_cooldown {s : State} {a b : Nat} {now : Int}
    {s' : State} (h : (activate_cooldown s a b now).result = .ok s')
    (hinv : poolInvariant s) : poolInvariant s' := by
  unfold activate_cooldown at h
  repeat' split at h
  all_goals simp at h
  all_goals subst h
  next d hd hw hc =>
    have hupd := sumActive_updateDeposit
      ({ d with is_cooldown_active := true,
                unlock_timestamp := now + s.pool.claim_cooldown }) hd
    simp only [poolInvariant] at hinv ⊢
    simp only [activeAmt] at hupd
    omega

lemma poolInvariant_unstake {s : State} {a b : Nat} {now : Int} {s' : State}
    (h : (unstake s a b now).result = .ok s')
    (hinv : poolInvariant s) : poolInvariant s' := by
  unfold unstake at h
  repeat' split at h
  all_goals simp at h
  all_goals subst h
  rename_i x5 d hd x4 st hst hem hw hc ht xur ur hur xsa sa hsa xpr pr hpr
    xpt pt hpt
  have hupd := sumActive_updateDeposit
    ({ d with tokens_claimed := ur, is_withdrawn := true }) hd
  rw [checkedSub64_ok_iff] at hpt
  simp only [poolInvariant] at hinv ⊢
  simp [activeAmt, hw] at hupd
  omega

lemma poolInvariant_unstake_emergency {s : State} {a b : Nat} {s' : State}
    (h : (unstake_emergency s a b).result = .ok s')
    (hinv : poolInvariant s) : poolInvariant s' := by
  unfold unstake_emergency at h
  repeat' split at h
  all_goals simp at h
  all_goals subst h
  rename_i x5 d hd x4 st hst hem hw xsa sa hsa xpt pt hpt
  have hupd := sumActive_updateDeposit ({ d with is_withdrawn := true }) hd
  rw [checkedSub64_ok_iff] at hpt
  simp only [poolInvariant] at hinv ⊢
  simp [activeAmt, hw] at hupd
  omega

/-- Claim C3: for every reachable state, the pool's `current_tokens_staked`
equals the sum of `tokens_deposited` over the pool's deposits with
`is_withdrawn = false`, and every instruction (stake, unstake, emergency
unstake, and the ones that do not touch deposits) preserves this
equality. -/
theorem pool_total_staked_invariant :
    (∀ s, Reachable s → poolInvariant s) ∧
    (∀ s op s', poolInvariant s → (step s op).result = .ok s' →
      poolInvariant s') := by
  have hstep : ∀ s op s', poolInvariant s →
      (step s op).result = .ok s' → poolInvariant s' := by
    intro s op s' hinv h
    cases op with
    | fund_pool signer amount => exact poolInvariant_fund_pool h hinv
    | enable_emergency_mode signer =>
        exact poolInvariant_enable_emergency_mode h hinv
    | change_pool_cooldown signer nc =>
        exact poolInvariant_change_pool_cooldown h hinv
    | stake staker id amt now => exact poolInvariant_stake h hinv
    | activate_cooldown staker id now =>
        exact poolInvariant_activate_cooldown h hinv
    | unstake staker id now => exact poolInvariant_unstake h hinv
    | unstake_emergency staker id =>
        exact poolInvariant_unstake_emergency h hinv
    | withdraw_rewards_emergency signer =>
        exact poolInvariant_withdraw_rewards_emergency h hinv
  refine ⟨?_, hstep⟩
  intro s hs
  induction hs with
  | init creator pool_id funding cooldown s h =>
      simp only [create_pool, Except.ok.injEq] at h
      subst h
      simp [poolInvariant, sumActive]
  | next s op s' hr h ih => exact hstep s op s' ih h

/-- Witness for C3 at the freshly created pool of the §8 scenario. -/
theorem pool_total_staked_invariant_witness :
    poolInvariant
      { pool :=
          { pool_id := 1, creator := 7, current_tokens_staked := 0,
            current_rewards := 1000, claim_cooldown := 10,
            emergency_mode_enabled := false }
        deposits := []
        stats := [] } :=
  pool_total_staked_invariant.1 _ (Reachable.init 7 1 1000 10 _ rfl)

/-- Claim C4: once a pool's emergency mode is on it stays on across every
instruction; enabling it again fails with the StateError
`EmergencyModeAlreadyEnabled`; and while it is on, `stake` and `unstake`
always fail, with the StateError `EmergencyModeEnabled` whenever account
resolution itself succeeds. -/
theorem emergency_mode_one_way :
    (∀ s op s', (step s op).result = .ok s' →
        s.pool.emergency_mode_enabled = true →
        s'.pool.emergency_mode_enabled = true) ∧
    (∀ s signer, s.pool.creator = signer →
        s.pool.emergency_mode_enabled = true →
        (enable_emergency_mode s signer).result =
          .error (.program .EmergencyModeAlreadyEnabled)) ∧
    errorClass .EmergencyModeAlreadyEnabled = .state ∧
    errorClass .EmergencyModeEnabled = .state ∧
    (∀ s staker id amt now, s.pool.emergency_mode_enabled = true →
        (stake s staker id amt now).result.isOk = false ∧
        (findDeposit s.deposits staker id = none →
          (stake s staker id amt now).result =
            .error (.program .EmergencyModeEnabled))) ∧
    (∀ s staker id now, s.pool.emergency_mode_enabled = true →
        (unstake s staker id now).result.isOk = false ∧
        (∀ d st, findDeposit s.deposits staker id = some d →
          findStats s.stats staker = some st →
          (unstake s staker id now).result =
            .error (.program .EmergencyModeEnabled))) := by
  refine ⟨?_, ?_, rfl, rfl, ?_, ?_⟩
  · intro s op s' h hem
    cases op with
    | fund_pool signer amount =>
        simp only [step, fund_pool] at h
        repeat' split at h
        all_goals (try simp at h)
        all_goals subst h
        all_goals simp_all
    | enable_emergency_mode signer =>
        simp only [step, enable_emergency_mode] at h
        repeat' split at h
        all_goals (try simp at h)
        all_goals subst h
        all_goals simp_all
    | change_pool_cooldown signer nc =>
        simp only [step, change_pool_cooldown] at h
        repeat' split at h
        all_goals (try simp at h)
        all_goals subst h
        all_goals simp_all
    | stake staker id amt now =>
        simp only [step, stake] at h
        repeat' split at h
        all_goals (try simp at h)
        all_goals subst h
        all_goals simp_all
    | activate_cooldown staker id now =>
        simp only [step, activate_cooldown] at h
        repeat' split at h
        all_goals (try simp at h)
        all_goals subst h
        all_goals simp_all
    | unstake staker id now =>
        simp only [step, unstake] at h
        repeat' split at h
        all_goals (try simp at h)
        all_goals subst h
        all_goals simp_all
    | unstake_emergency staker id =>
        simp only [step, unstake_emergency] at h
        repeat' split at h
        all_goals (try simp at h)
        all_goals subst h
        all_goals simp_all
    | withdraw_rewards_emergency signer =>
        simp only [step, withdraw_rewards_emergency] at h
        repeat' split at h
        all_goals (try simp at h)
        all_goals subst h
        all_goals simp_all
  · intro s signer hcr hem
    simp [enable_emergency_mode, hcr, hem]
  · intro s staker id amt now hem
    constructor
    · unfold stake
      split
      · rfl
      · simp [hem, Except.isOk, Except.toBool]
    · intro hnone
      simp [stake, hnone, hem]
  · intro s staker id now hem
    constructor
    · unfold unstake
      split
      · rfl
      · split
        · rfl
        · simp [hem, Except.isOk, Except.toBool]
    · intro d st hd hst
      simp [unstake, hd, hst, hem]

/-- Witness for C4: in the emergency state of the §8 scenario, re-enabling
fails with `EmergencyModeAlreadyEnabled` and a fresh stake fails with
`EmergencyModeEnabled`. -/
theorem emergency_mode_one_way_witness :
    (enable_emergency_mode sEmergency 7).result =
      .error (.program .EmergencyModeAlreadyEnabled) ∧
    (stake sEmergency 300 9 50 0).result =
      .error (.program .EmergencyModeEnabled) :=
  ⟨emergency_mode_one_way.2.1 sEmergency 7 (by decide) (by decide),
   (emergency_mode_one_way.2.2.2.2.1 sEmergency 300 9 50 0 (by decide)).2
     (by decide)⟩

/-- Claim C6: `withdraw_rewards_emergency` by the creator with emergency mode on
transfers exactly the reward balance captured before it is zeroed and
leaves `current_rewards = 0`; a non-creator gets the AuthorizationError
`UnauthorizedPoolAccess`; without emergency mode the creator gets the
StateError `EmergencyModeNotEnabled`. -/
theorem withdraw_rewards_emergency_drains_exact :
    (∀ s signer, s.pool.creator = signer →
        s.pool.emergency_mode_enabled = true →
        (withdraw_rewards_emergency s signer).events =
          [.check true, .check true, .mutate,
           .transfer s.pool.current_rewards] ∧
        (withdraw_rewards_emergency s signer).result =
          .ok { s with pool := { s.pool with current_rewards := 0 } }) ∧
    (∀ s signer, s.pool.creator ≠ signer →
        (withdraw_rewards_emergency s signer).result =
          .error (.program .UnauthorizedPoolAccess)) ∧
    errorClass .UnauthorizedPoolAccess = .authorization ∧
    (∀ s signer, s.pool.creator = signer →
        s.pool.emergency_mode_enabled = false →
        (withdraw_rewards_emergency s signer).result =
          .error (.program .EmergencyModeNotEnabled)) ∧
    errorClass .EmergencyModeNotEnabled = .state := by
  refine ⟨?_, ?_, rfl, ?_, rfl⟩
  · intro s signer hcr hem
    constructor <;> simp [withdraw_rewards_emergency, hcr, hem]
  · intro s signer hne
    simp [withdraw_rewards_emergency, hne]
  · intro s signer hcr hem
    simp [withdraw_rewards_emergency, hcr, hem]

/-- Witness for C6 in the emergency state of the §8 scenario: the creator
receives the 1000 pre-zeroing reward units. -/
theorem withdraw_rewards_emergency_drains_exact_witness :
    (withdraw_rewards_emergency sEmergency 7).events =
      [.check true, .check true, .mutate, .transfer 1000] ∧
    (withdraw_rewards_emergency sEmergency 7).result =
      .ok { sEmergency with
            pool := { sEmergency.pool with current_rewards := 0 } } :=
  withdraw_rewards_emergency_drains_exact.1 sEmergency 7
    (by decide) (by decide)

/-- Claim C8: on a non-withdrawn deposit with an inactive cooldown,
`activate_cooldown` arms the cooldown and sets the unlock time from the
pool's current `claim_cooldown`; a second call fails with the StateError
`CooldownAlreadyActivated`, the unlock time keeping the value the first
call set; on a withdrawn deposit it fails with the StateError
`DepositAlreadyWithdrawn`. -/
theorem activate_cooldown_single_use :
    (∀ s staker id now d, findDeposit s.deposits staker id = some d →
      d.is_withdrawn = false → d.is_cooldown_active = false →
      ∃ s', (activate_cooldown s staker id now).result = .ok s' ∧
        findDeposit s'.deposits staker id =
          some { d with is_cooldown_active := true,
                        unlock_timestamp := now + s.pool.claim_cooldown } ∧
        s'.pool = s.pool ∧
        (∀ now2, (activate_cooldown s' staker id now2).result =
          .error (.program .CooldownAlreadyActivated))) ∧
    errorClass .CooldownAlreadyActivated = .state ∧
    (∀ s staker id now d, findDeposit s.deposits staker id = some d →
      d.is_withdrawn = true →
      (activate_cooldown s staker id now).result =
        .error (.program .DepositAlreadyWithdrawn)) ∧
    errorClass .DepositAlreadyWithdrawn = .state := by
  refine ⟨?_, rfl, ?_, rfl⟩
  · intro s staker id now d hd hw hc
    have hkeys := findDeposit_keys hd
    have hfind := findDeposit_updateDeposit_self
      ({ d with is_cooldown_active := true,
                unlock_timestamp := now + s.pool.claim_cooldown })
      hd hkeys.1 hkeys.2
    have hok : (activate_cooldown s staker id now).result = .ok
        { s with
          deposits :=
            updateDeposit s.deposits staker id
              { d with
                is_cooldown_active := true
                unlock_timestamp := now + s.pool.claim_cooldown } } := by
      simp [activate_cooldown, hd, hw, hc]
    refine ⟨_, hok, hfind, rfl, ?_⟩
    intro now2
    simp only [hw] at hfind
    simp [activate_cooldown, hfind, hw]
  · intro s staker id now d hd hw
    simp [activate_cooldown, hd, hw]

/-- Witness for C8: arming staker B's cooldown in the §8 scenario
succeeds, and a second arming fails. -/
theorem activate_cooldown_single_use_witness :
    ∃ s', (activate_cooldown sReady 200 2 0).result = .ok s' ∧
      findDeposit s'.deposits 200 2 =
        some { depositB with is_cooldown_active := true,
                             unlock_timestamp := 0 + sReady.pool.claim_cooldown } ∧
      s'.pool = sReady.pool ∧
      (∀ now2, (activate_cooldown s' 200 2 now2).result =
        .error (.program .CooldownAlreadyActivated)) :=
  activate_cooldown_single_use.1 sReady 200 2 0 depositB
    (by decide) (by decide) (by decide)

/-- Claim C9: `change_pool_cooldown` by the creator rewrites only the pool's
`claim_cooldown`: the deposits and staker stats are untouched (so every
already-computed `unlock_timestamp` and every `is_cooldown_active` flag
is unchanged) and every other pool field is preserved; a cooldown armed
afterwards uses the new duration. -/
theorem change_cooldown_frame :
    ∀ s signer nc, s.pool.creator = signer →
      (change_pool_cooldown s signer nc).result =
        .ok { s with pool := { s.pool with claim_cooldown := nc } } ∧
      (∀ s', (change_pool_cooldown s signer nc).result = .ok s' →
        s'.deposits = s.deposits ∧ s'.stats = s.stats ∧
        s'.pool.pool_id = s.pool.pool_id ∧
        s'.pool.creator = s.pool.creator ∧
        s'.pool.current_tokens_staked = s.pool.current_tokens_staked ∧
        s'.pool.current_rewards = s.pool.current_rewards ∧
        s'.pool.emergency_mode_enabled = s.pool.emergency_mode_enabled ∧
        s'.pool.claim_cooldown = nc ∧
        (∀ staker id now d, findDeposit s'.deposits staker id = some d →
          d.is_withdrawn = false → d.is_cooldown_active = false →
          ∃ s'', (activate_cooldown s' staker id now).result = .ok s'' ∧
            findDeposit s''.deposits staker id =
              some { d with is_cooldown_active := true,
                            unlock_timestamp := now + nc })) := by
  intro s signer nc hcr
  have hok : (change_pool_cooldown s signer nc).result =
      .ok { s with pool := { s.pool with claim_cooldown := nc } } := by
    simp [change_pool_cooldown, hcr]
  refine ⟨hok, ?_⟩
  intro s' h
  rw [hok] at h
  simp only [Except.ok.injEq] at h
  subst h
  refine ⟨rfl, rfl, rfl, rfl, rfl, rfl, rfl, rfl, ?_⟩
  intro staker id now d hd hw hc
  have hkeys := findDeposit_keys hd
  have hfind := findDeposit_updateDeposit_self
    ({ d with is_cooldown_active := true,
              unlock_timestamp := now + nc }) hd hkeys.1 hkeys.2
  have hok : (activate_cooldown
      { s with pool := { s.pool with claim_cooldown := nc } }
      staker id now).result = .ok
        { s with
          pool := { s.pool with claim_cooldown := nc }
          deposits :=
            updateDeposit s.deposits staker id
              { d with
                is_cooldown_active := true
                unlock_timestamp := now + nc } } := by
    simp [activate_cooldown, hd, hw, hc]
  exact ⟨_, hok, hfind⟩

/-- Witness for C9: the creator changes the cooldown from 10 to 99 in the
§8 scenario; deposits are untouched, and arming staker B's cooldown
afterwards uses 99. -/
theorem change_cooldown_frame_witness :
    (change_pool_cooldown sReady 7 99).result =
      .ok { sReady with pool := { sReady.pool with claim_cooldown := 99 } } ∧
    (∀ s', (change_pool_cooldown sReady 7 99).result = .ok s' →
      s'.deposits = sReady.deposits ∧ s'.stats = sReady.stats ∧
      s'.pool.pool_id = sReady.pool.pool_id ∧
      s'.pool.creator = sReady.pool.creator ∧
      s'.pool.current_tokens_staked = sReady.pool.current_tokens_staked ∧
      s'.pool.current_rewards = sReady.pool.current_rewards ∧
      s'.pool.emergency_mode_enabled = sReady.pool.emergency_mode_enabled ∧
      s'.pool.claim_cooldown = 99 ∧
      (∀ staker id now d, findDeposit s'.deposits staker id = some d →
        d.is_withdrawn = false → d.is_cooldown_active = false →
        ∃ s'', (activate_cooldown s' staker id now).result = .ok s'' ∧
          findDeposit s''.deposits staker id =
            some { d with is_cooldown_active := true,
                          unlock_timestamp := now + 99 })) :=
  change_cooldown_frame sReady 7 99 (by decide)

lemma reachable_sZero : Reachable sZero :=
  Reachable.next sZeroStaked (.activate_cooldown 100 1 0) sZero
    (Reachable.next sFresh (.stake 100 1 0 0) sZeroStaked
      (Reachable.init 7 1 5 10 sFresh (by decide))
      (by decide))
    (by decide)

/-- For `u64` inputs with `u ≤ t` and `t ≠ 0`, `economy_estimate_rewards`
returns exactly `⌊u * r / t⌋`: the `u128` product does not wrap and the
final quotient fits in `u64`. -/
lemma economy_exact {t u r : Nat} (h0 : 0 < t) (hu : u ≤ t)
    (hbt : t < U64_MOD) (hbr : r < U64_MOD) :
    economy_estimate_rewards t u r = .ok (u * r / t) ∧
      u * r < U128_MOD ∧ u * r / t < U64_MOD := by
  have h1 : u < U64_MOD := lt_of_le_of_lt hu hbt
  have hmul : U64_MOD * U64_MOD = U128_MOD := by
    norm_num [U64_MOD, U128_MOD]
  have hur : u * r < U128_MOD := by
    rcases Nat.eq_zero_or_pos u with hz | hup
    · subst hz
      simpa [U128_MOD] using Nat.pos_pow_of_pos 128 (by norm_num)
    · calc u * r < U64_MOD * U64_MOD :=
            mul_lt_mul'' h1 hbr (Nat.zero_le u) (Nat.zero_le r)
        _ = U128_MOD := hmul
  have hq : u * r / t ≤ r := by
    calc u * r / t ≤ t * r / t :=
          Nat.div_le_div_right (Nat.mul_le_mul_right r hu)
      _ = r := Nat.mul_div_cancel_left r h0
  have hqlt : u * r / t < U64_MOD := lt_of_le_of_lt hq hbr
  refine ⟨?_, hur, hqlt⟩
  unfold economy_estimate_rewards
  rw [if_neg (Nat.pos_iff_ne_zero.mp h0)]
  rw [Nat.mod_eq_of_lt hur, Nat.mod_eq_of_lt hqlt]

/-- Full characterisation of a successful `unstake`: under the four body
preconditions, a non-empty `u64`-bounded pool and the aggregate
consistency the reachable states provide, the instruction emits the two
transfers (principal, then the floor-divided reward) and commits the
mutated accounts. -/
lemma unstake_success {s : State} {staker id : Nat} {now : Int}
    {d : StakerDeposit} {st : StakerStats}
    (hd : findDeposit s.deposits staker id = some d)
    (hst : findStats s.stats staker = some st)
    (hem : s.pool.emergency_mode_enabled = false)
    (hw : d.is_withdrawn = false)
    (hc : d.is_cooldown_active = true)
    (ht : now ≥ d.unlock_timestamp)
    (h0 : 0 < s.pool.current_tokens_staked)
    (hle : d.tokens_deposited ≤ s.pool.current_tokens_staked)
    (hsle : d.tokens_deposited ≤ st.total_staked)
    (hbt : s.pool.current_tokens_staked < U64_MOD)
    (hbr : s.pool.current_rewards < U64_MOD) :
    unstake s staker id now =
      { events :=
          [.check true, .check true, .check true, .check true, .mutate,
           .transfer d.tokens_deposited,
           .transfer (d.tokens_deposited * s.pool.current_rewards /
             s.pool.current_tokens_staked)]
        result := .ok
          { pool :=
              { s.pool with
                current_rewards := s.pool.current_rewards -
                  d.tokens_deposited * s.pool.current_rewards /
                    s.pool.current_tokens_staked
                current_tokens_staked := s.pool.current_tokens_staked -
                  d.tokens_deposited }
            deposits :=
              updateDeposit s.deposits staker id
                { d with
                  tokens_claimed := d.tokens_deposited *
                    s.pool.current_rewards / s.pool.current_tokens_staked
                  is_withdrawn := true }
            stats :=
              putStats s.stats
                { staker := staker
                  total_staked := st.total_staked - d.tokens_deposited } } } := by
  have heco := economy_exact h0 hle hbt hbr
  have hq : d.tokens_deposited * s.pool.current_rewards /
      s.pool.current_tokens_staked ≤ s.pool.current_rewards := by
    calc d.tokens_deposited * s.pool.current_rewards /
          s.pool.current_tokens_staked
        ≤ s.pool.current_tokens_staked * s.pool.current_rewards /
            s.pool.current_tokens_staked :=
          Nat.div_le_div_right (Nat.mul_le_mul_right _ hle)
      _ = s.pool.current_rewards := Nat.mul_div_cancel_left _ h0
  simp [unstake, hd, hst, hem, hw, hc, ht, heco.1, checkedSub64, hle,
    hsle, hq]

/-- Counterexample to C7's unconditional success clause: `sZero` is
reachable (create, stake 0, arm cooldown), its pool is not in emergency
mode, deposit `(100, 1)` is live with an elapsed active cooldown at
`now = 20`, yet `unstake` aborts with a division-by-zero panic because
`current_tokens_staked = 0`. -/
theorem unstake_gating_counterexample :
    Reachable sZero ∧
    sZero.pool.emergency_mode_enabled = false ∧
    findDeposit sZero.deposits 100 1 =
      some { depZeroInit with is_cooldown_active := true } ∧
    ({ depZeroInit with is_cooldown_active := true } :
      StakerDeposit).is_withdrawn = false ∧
    (20 : Int) ≥ ({ depZeroInit with is_cooldown_active := true } :
      StakerDeposit).unlock_timestamp ∧
    (unstake sZero 100 1 20).result = .error .divByZero :=
  ⟨reachable_sZero, by decide, by decide, by decide, by decide, by decide⟩

/-- Claim C7 (amended): in a non-emergency pool the four `unstake` checks run
in order, each with its own StateError (`EmergencyModeEnabled`,
`DepositAlreadyWithdrawn`, `ClaimCooldownNotActive`,
`ClaimCooldownNotElapsed`), and with the cooldown active and elapsed the
call succeeds PROVIDED `current_tokens_staked > 0` (with `u64`-bounded
pool fields and aggregate consistency); with `current_tokens_staked = 0`
— reachable via zero-amount deposits — it instead aborts on the division
by zero. -/
theorem unstake_gating_order :
    (∀ s staker id now d st,
      findDeposit s.deposits staker id = some d →
      findStats s.stats staker = some st →
      (s.pool.emergency_mode_enabled = true →
        (unstake s staker id now).result =
          .error (.program .EmergencyModeEnabled)) ∧
      (s.pool.emergency_mode_enabled = false → d.is_withdrawn = true →
        (unstake s staker id now).result =
          .error (.program .DepositAlreadyWithdrawn)) ∧
      (s.pool.emergency_mode_enabled = false → d.is_withdrawn = false →
        d.is_cooldown_active = false →
        (unstake s staker id now).result =
          .error (.program .ClaimCooldownNotActive)) ∧
      (s.pool.emergency_mode_enabled = false → d.is_withdrawn = false →
        d.is_cooldown_active = true → now < d.unlock_timestamp →
        (unstake s staker id now).result =
          .error (.program .ClaimCooldownNotElapsed)) ∧
      (s.pool.emergency_mode_enabled = false → d.is_withdrawn = false →
        d.is_cooldown_active = true → now ≥ d.unlock_timestamp →
        0 < s.pool.current_tokens_staked →
        d.tokens_deposited ≤ s.pool.current_tokens_staked →
        d.tokens_deposited ≤ st.total_staked →
        s.pool.current_tokens_staked < U64_MOD →
        s.pool.current_rewards < U64_MOD →
        (unstake s staker id now).result.isOk = true) ∧
      (s.pool.emergency_mode_enabled = false → d.is_withdrawn = false →
        d.is_cooldown_active = true → now ≥ d.unlock_timestamp →
        s.pool.current_tokens_staked = 0 →
        (unstake s staker id now).result = .error .divByZero)) ∧
    errorClass .EmergencyModeEnabled = .state ∧
    errorClass .DepositAlreadyWithdrawn = .state ∧
    errorClass .ClaimCooldownNotActive = .state ∧
    errorClass .ClaimCooldownNotElapsed = .state := by
  refine ⟨?_, rfl, rfl, rfl, rfl⟩
  intro s staker id now d st hd hst
  refine ⟨?_, ?_, ?_, ?_, ?_, ?_⟩
  · intro hem
    simp [unstake, hd, hst, hem]
  · intro hem hw
    simp [unstake, hd, hst, hem, hw]
  · intro hem hw hc
    simp [unstake, hd, hst, hem, hw, hc]
  · intro hem hw hc hlt
    simp [unstake, hd, hst, hem, hw, hc, not_le.mpr hlt]
  · intro hem hw hc ht h0 hle hsle hbt hbr
    rw [show (unstake s staker id now).result = _ from
      congrArg OpResult.result
        (unstake_success hd hst hem hw hc ht h0 hle hsle hbt hbr)]
    rfl
  · intro hem hw hc ht h0
    simp [unstake, hd, hst, hem, hw, hc, ht, h0, economy_estimate_rewards]

/-- Witness for C7 at the §8 scenario: staker A's elapsed-cooldown
deposit unstakes successfully. -/
theorem unstake_gating_order_witness :
    (unstake sReady 100 1 60).result.isOk = true :=
  ((unstake_gating_order.1 sReady 100 1 60 depositA
      { staker := 100, total_staked := 100 } (by decide)
      (by decide)).2.2.2.2.1) (by decide) (by decide) (by decide)
    (by decide) (by decide) (by decide) (by decide) (by decide) (by decide)

/-- Claim C1: a succeeding `unstake` pays exactly
`⌊deposit.amount * pool.total_rewards / pool.total_staked⌋`: the factors
are widened so the 128-bit product cannot wrap, the quotient fits the
64-bit amount width (so the final narrowing is exact), and that exact
value is both transferred and recorded in `tokens_claimed`. -/
theorem unstake_reward_formula_exact :
    ∀ s staker id now d st,
      findDeposit s.deposits staker id = some d →
      findStats s.stats staker = some st →
      s.pool.emergency_mode_enabled = false →
      d.is_withdrawn = false → d.is_cooldown_active = true →
      now ≥ d.unlock_timestamp →
      0 < s.pool.current_tokens_staked →
      d.tokens_deposited ≤ s.pool.current_tokens_staked →
      d.tokens_deposited ≤ st.total_staked →
      s.pool.current_tokens_staked < U64_MOD →
      s.pool.current_rewards < U64_MOD →
      d.tokens_deposited * s.pool.current_rewards < U128_MOD ∧
      d.tokens_deposited * s.pool.current_rewards /
        s.pool.current_tokens_staked < U64_MOD ∧
      economy_estimate_rewards s.pool.current_tokens_staked
        d.tokens_deposited s.pool.current_rewards =
        .ok (d.tokens_deposited * s.pool.current_rewards /
          s.pool.current_tokens_staked) ∧
      (unstake s staker id now).events =
        [.check true, .check true, .check true, .check true, .mutate,
         .transfer d.tokens_deposited,
         .transfer (d.tokens_deposited * s.pool.current_rewards /
           s.pool.current_tokens_staked)] ∧
      (∃ s', (unstake s staker id now).result = .ok s' ∧
        findDeposit s'.deposits staker id =
          some { d with
                 tokens_claimed := d.tokens_deposited *
                   s.pool.current_rewards / s.pool.current_tokens_staked
                 is_withdrawn := true } ∧
        s'.pool.current_rewards = s.pool.current_rewards -
          d.tokens_deposited * s.pool.current_rewards /
            s.pool.current_tokens_staked) := by
  intro s staker id now d st hd hst hem hw hc ht h0 hle hsle hbt hbr
  have heco := economy_exact h0 hle hbt hbr
  have hok := unstake_success hd hst hem hw hc ht h0 hle hsle hbt hbr
  have hkeys := findDeposit_keys hd
  have hfind := findDeposit_updateDeposit_self
    ({ d with
       tokens_claimed := d.tokens_deposited *
         s.pool.current_rewards / s.pool.current_tokens_staked
       is_withdrawn := true }) hd hkeys.1 hkeys.2
  refine ⟨heco.2.1, heco.2.2, heco.1, ?_, ?_⟩
  · rw [show (unstake s staker id now).events = _ from
      congrArg OpResult.events hok]
  · refine ⟨_, congrArg OpResult.result hok, hfind, rfl⟩

/-- Witness for C1 at the §8 scenario: staker A's 100 against 400 staked
and 1000 rewards pays exactly `⌊100 * 1000 / 400⌋ = 250`. -/
theorem unstake_reward_formula_exact_witness :
    (unstake sReady 100 1 60).events =
      [.check true, .check true, .check true, .check true, .mutate,
       .transfer 100, .transfer 250] := by
  have h := (unstake_reward_formula_exact sReady 100 1 60 depositA
    { staker := 100, total_staked := 100 } (by decide) (by decide)
    (by decide) (by decide) (by decide) (by decide) (by decide)
    (by decide) (by decide) (by decide) (by decide)).2.2.2.1
  simpa using h

/-- Claim C10: `economy_estimate_rewards` has no zero guard: it aborts with the
division-by-zero panic exactly when `total_staked = 0` and is total
otherwise; the zero case is reachable because zero-amount stakes are
accepted and leave `current_tokens_staked` at 0, and `unstake` then hits
the panic. -/
theorem reward_division_zero_guard :
    (∀ u r, economy_estimate_rewards 0 u r = .error .divByZero) ∧
    (∀ t u r, 0 < t → ∃ v, economy_estimate_rewards t u r = .ok v) ∧
    Reachable sZero ∧
    sZero.pool.current_tokens_staked = 0 ∧
    (stake sFresh 100 1 0 0).result = .ok sZeroStaked ∧
    (unstake sZero 100 1 20).result = .error .divByZero := by
  refine ⟨?_, ?_, reachable_sZero, by decide, by decide, by decide⟩
  · intro u r
    simp [economy_estimate_rewards]
  · intro t u r h0
    exact ⟨u * r % U128_MOD / t % U64_MOD,
      by simp [economy_estimate_rewards, Nat.pos_iff_ne_zero.mp h0]⟩

/-- Witness for C10: with 4 staked the division is defined. -/
theorem reward_division_zero_guard_witness :
    ∃ v, economy_estimate_rewards 4 1 9 = .ok v :=
  reward_division_zero_guard.2.1 4 1 9 (by decide)

/-- Counterexample to C5: `stake` with amount 0 on a fresh pool does NOT
fail — it returns success, creates the zero-amount deposit and issues a
zero-amount transfer (the body has no `amount > 0` check). -/
theorem stake_zero_amount_counterexample :
    (stake sFresh 100 1 0 0).events = [.check true, .mutate, .transfer 0] ∧
    (stake sFresh 100 1 0 0).result = .ok sZeroStaked ∧
    findDeposit sZeroStaked.deposits 100 1 = some depZeroInit := by
  refine ⟨by decide, by decide, by decide⟩

/-- Claim C5 (amended): `stake` with amount 0 succeeds whenever a non-zero
stake would: a deposit with `tokens_deposited = 0` is appended, the pool
and staker aggregates keep their numeric values, and a zero-amount
transfer is issued. -/
theorem stake_zero_amount_accepted :
    ∀ s staker id now, s.pool.emergency_mode_enabled = false →
      findDeposit s.deposits staker id = none →
      ((findStats s.stats staker).getD
        { staker := staker, total_staked := 0 }).total_staked < U64_MOD →
      s.pool.current_tokens_staked < U64_MOD →
      (stake s staker id 0 now).events =
        [.check true, .mutate, .transfer 0] ∧
      (stake s staker id 0 now).result = .ok
        { pool := s.pool
          deposits := s.deposits ++
            [{ staker := staker
               deposit_id := id
               tokens_deposited := 0
               tokens_claimed := 0
               unlock_timestamp := now + s.pool.claim_cooldown
               is_withdrawn := false
               is_cooldown_active := false }]
          stats := putStats s.stats
            { staker := staker
              total_staked := ((findStats s.stats staker).getD
                { staker := staker, total_staked := 0 }).total_staked } } := by
  intro s staker id now hem hnone hbs hbp
  constructor
  · simp [stake, hnone, hem, checkedAdd64, hbs, hbp]
  · simp [stake, hnone, hem, checkedAdd64, hbs, hbp]
    rw [← hem]

/-- Witness for C5 (amended) on the fresh pool. -/
theorem stake_zero_amount_accepted_witness :
    (stake sFresh 100 1 0 0).events =
      [.check true, .mutate, .transfer 0] ∧
    (stake sFresh 100 1 0 0).result = .ok
      { pool := sFresh.pool
        deposits := sFresh.deposits ++
          [{ staker := 100
             deposit_id := 1
             tokens_deposited := 0
             tokens_claimed := 0
             unlock_timestamp := 0 + sFresh.pool.claim_cooldown
             is_withdrawn := false
             is_cooldown_active := false }]
        stats := putStats sFresh.stats
          { staker := 100
            total_staked := ((findStats sFresh.stats 100).getD
              { staker := 100, total_staked := 0 }).total_staked } } :=
  stake_zero_amount_accepted sFresh 100 1 0 (by decide) (by decide)
    (by decide) (by decide)

/-- Claim C2 is violated by `unstake_emergency`: the principal transfer is
issued before the emergency-mode and withdrawn checks.  On the
non-emergency scenario state the trace is a 300-token transfer followed
by the failing check, and even on the succeeding emergency path the
transfer precedes both checks, so `checksFirst` is false in both cases.
(Every other instruction front-loads its checks.) -/
theorem emergency_unstake_transfer_before_checks :
    (unstake_emergency sReady 200 2).events =
      [.transfer 300, .check false] ∧
    (unstake_emergency sReady 200 2).result =
      .error (.program .EmergencyModeNotEnabled) ∧
    checksFirst (unstake_emergency sReady 200 2).events = false ∧
    (unstake_emergency sEmergency 200 2).events =
      [.transfer 300, .check true, .check true, .mutate] ∧
    (unstake_emergency sEmergency 200 2).result.isOk = true ∧
    checksFirst (unstake_emergency sEmergency 200 2).events = false := by
  refine ⟨by decide, by decide, by decide, by decide, by decide, by decide⟩

end Staking
